import Mathlib

/-!
Verification of the batch text-to-speech pipeline in this repository
(src/functions.py), via a shallow embedding of its operations in Lean.

Numeric conventions of the embedding: Python floats are modelled as exact
rationals, Python `int(...)` truncation as `pyTrunc`, float `%` as
`pyFloorMod`, and Python 3 `round` (round-half-to-even) as `pyRound`.
Filesystem trees are modelled two levels deep: a directory listing is a
`List (String × Entry)` where an `Entry` is either a file with string
contents or a directory holding a flat name-to-contents file map.
-/

set_option maxHeartbeats 1000000

namespace T2A

/-! ### Python numeric primitives

`Rat.floor` is used instead of the `⌊·⌋` notation so that the definitions
evaluate inside the kernel; `Rat.floor_def'` identifies the two. -/

/-- Python float `a % b` (sign of the divisor; here used with positive `b`):
`a - b * floor (a / b)`. -/
def pyFloorMod (a b : ℚ) : ℚ := a - b * Rat.floor (a / b)

/-- Python `int(x)` on a float: truncation toward zero. -/
def pyTrunc (q : ℚ) : ℤ := if 0 ≤ q then Rat.floor q else Rat.ceil q

/-- Python 3 `round(x)`: round half to even. -/
def pyRound (q : ℚ) : ℤ :=
  if q - Rat.floor q < 1/2 then Rat.floor q
  else if 1/2 < q - Rat.floor q then Rat.floor q + 1
  else if Rat.floor q % 2 = 0 then Rat.floor q else Rat.floor q + 1

/-- `Rat.floor` agrees with the `FloorRing` floor. -/
theorem ratFloor_eq (q : ℚ) : Rat.floor q = ⌊q⌋ :=
  (Rat.floor_def' q).trans Rat.floor_def.symm

/-! ### convert_seconds_to_srt_time (src/functions.py lines 419-433) -/

/-- The four components of an SRT timestamp. -/
structure SrtTime where
  hours : ℤ
  minutes : ℤ
  secs : ℤ
  millis : ℤ
deriving DecidableEq, Repr

/-- Field computation of `convert_seconds_to_srt_time` (lines 420-432):
`hours = int(seconds // 3600)`, `minutes = int((seconds % 3600) // 60)`,
`secs = int(seconds % 60)`, `millis = int(round((seconds - int(seconds)) * 1000))`,
followed by the millisecond-rollover carry chain. -/
def convert_seconds_to_srt_time_fields (seconds : ℚ) : SrtTime :=
  let hours : ℤ := Rat.floor (seconds / 3600)
  let minutes : ℤ := Rat.floor (pyFloorMod seconds 3600 / 60)
  let secs : ℤ := pyTrunc (pyFloorMod seconds 60)
  let millis : ℤ := pyRound ((seconds - pyTrunc seconds) * 1000)
  if millis = 1000 then
    if secs + 1 = 60 then
      if minutes + 1 = 60 then ⟨hours + 1, 0, 0, 0⟩
      else ⟨hours, minutes + 1, 0, 0⟩
    else ⟨hours, minutes, secs + 1, 0⟩
  else ⟨hours, minutes, secs, millis⟩

/-- Python `f"{n:0w}"`: decimal rendering zero-padded to width `w`
(the sign, when present, counts toward the width and precedes the padding). -/
def intPad (w : Nat) (n : ℤ) : String :=
  if n < 0 then
    let s := toString (-n)
    if s.length + 1 < w then "-" ++ String.mk (List.replicate (w - 1 - s.length) '0') ++ s
    else "-" ++ s
  else
    let s := toString n
    if s.length < w then String.mk (List.replicate (w - s.length) '0') ++ s
    else s

/-- `convert_seconds_to_srt_time` (line 433): `f"{hours:02}:{minutes:02}:{secs:02},{millis:03}"`. -/
def convert_seconds_to_srt_time (seconds : ℚ) : String :=
  let t := convert_seconds_to_srt_time_fields seconds
  intPad 2 t.hours ++ ":" ++ intPad 2 t.minutes ++ ":" ++ intPad 2 t.secs ++ "," ++ intPad 3 t.millis

/-! ### get_task_status (src/functions.py lines 221-273) -/

/-- One poll attempt's observable outcome, as seen by `get_task_status`. -/
inductive PollResponse where
  /-- `requests` raised (timeout or any other exception, lines 238-245). -/
  | transportError
  /-- Response parsed but `base_resp.status_code ≠ 0` (lines 265-268). -/
  | malformed
  /-- Well-formed response carrying `status` and an optional `file_id`. -/
  | ok (status : String) (file_id : Option String)
deriving DecidableEq, Repr

/-- `retry_delay_seconds = 5` (line 231). -/
def retry_delay_seconds : Nat := 5

/-- `max_retries = 100` (line 230). -/
def max_retries : Nat := 100

/-- The polling loop body of `get_task_status` (lines 233-270) over a list of
responses, one per attempt.  Returns the value returned by the Python function
together with the ordered list of `time.sleep` durations performed.  A
transport error or malformed response consumes the attempt and sleeps; status
`Success` returns the response's `file_id` at once; `Failed` and `Expired`
return `None` at once; any other status sleeps and retries.  An exhausted list
models falling out of the `for` loop (line 272-273): return `None`. -/
def get_task_status_loop : List PollResponse → Option String × List Nat
  | [] => (none, [])
  | .transportError :: rest =>
      ((get_task_status_loop rest).1, retry_delay_seconds :: (get_task_status_loop rest).2)
  | .malformed :: rest =>
      ((get_task_status_loop rest).1, retry_delay_seconds :: (get_task_status_loop rest).2)
  | .ok status fid :: rest =>
      if status = "Success" then (fid, [])
      else if status = "Failed" then (none, [])
      else if status = "Expired" then (none, [])
      else ((get_task_status_loop rest).1, retry_delay_seconds :: (get_task_status_loop rest).2)

/-- `get_task_status`: at most `max_retries` attempts of the loop body. -/
def get_task_status (responses : List PollResponse) : Option String × List Nat :=
  get_task_status_loop (responses.take max_retries)

/-- A response that does not terminate the poll: transport error, malformed
response, or a status other than `Success`, `Failed`, `Expired`. -/
def nonTerminal : PollResponse → Prop
  | .transportError => True
  | .malformed => True
  | .ok status _ => status ≠ "Success" ∧ status ≠ "Failed" ∧ status ≠ "Expired"

instance : DecidablePred nonTerminal := by
  intro r
  cases r with
  | transportError => exact isTrue trivial
  | malformed => exact isTrue trivial
  | ok status fid => exact inferInstanceAs (Decidable (_ ∧ _ ∧ _))

/-! ### json_to_srt (src/functions.py lines 435-502)

A subtitle record is modelled as a dictionary whose recognised keys are
optional fields; time values, when present, are numbers (the code skips
non-numeric times, which the model's type already enforces). -/

/-- One entry of the parsed `.titles` list, with the primary field names and
the alternate names probed at lines 467-469. -/
structure TitleItem where
  text : Option String := none
  time_begin : Option ℚ := none
  time_end : Option ℚ := none
  sentence : Option String := none
  begin_time : Option ℚ := none
  end_time : Option ℚ := none
deriving DecidableEq, Repr

/-- Field resolution of lines 460-477: primary names first, then the
alternate names for any field still missing; an entry lacking any of the
three fields after both attempts is skipped. -/
def resolveTitleItem (it : TitleItem) : Option (String × ℚ × ℚ) :=
  match it.text.or it.sentence, it.time_begin.or it.begin_time, it.time_end.or it.end_time with
  | some t, some b, some e => some (t, b, e)
  | _, _, _ => none

/-- The block-building loop of lines 455-489: for each usable record, append
the index line, the `start --> end` line, the (BOM-stripped) text line and a
blank line, numbering from `subtitle_id = 1` in input order. -/
def srtLines : List TitleItem → Nat → List String
  | [], _ => []
  | it :: rest, id =>
    match resolveTitleItem it with
    | none => srtLines rest id
    | some (t, b, e) =>
        let t := if t.startsWith "\uFEFF" then t.drop 1 else t
        toString id ::
          (convert_seconds_to_srt_time (b / 1000) ++ " --> " ++ convert_seconds_to_srt_time (e / 1000)) ::
          t :: "" :: srtLines rest (id + 1)

/-- `json_to_srt` on a list input: `none` models `return False` (no usable
records, line 491-493); `some s` models writing `"\n".join(srt_output)` to the
output file and returning `True` (lines 495-499). -/
def json_to_srt (items : List TitleItem) : Option String :=
  match srtLines items 1 with
  | [] => none
  | out => some (String.intercalate "\n" out)

/-! ### create_speech_task (src/functions.py lines 167-199) -/

/-- The `voice_setting` object of the outbound payload. -/
structure VoiceSetting where
  voice_id : String
  speed : ℚ
  vol : ℚ
  pitch : ℤ
  emotion : Option String
deriving DecidableEq, Repr

/-- The `audio_setting` object of the outbound payload. -/
structure AudioSetting where
  audio_sample_rate : ℤ
  bitrate : ℤ
  format : String
  channel : ℤ
deriving DecidableEq, Repr

/-- The JSON payload built by `create_speech_task` (lines 175-195). -/
structure SpeechTaskPayload where
  model : String
  text_file_id : String
  voice_setting : VoiceSetting
  audio_setting : AudioSetting
deriving DecidableEq, Repr

/-- Payload construction of `create_speech_task` (lines 175-195): speed and
vol are passed through `float(...)` and pitch through `int(...)` (identity
coercions in the rational/integer model), and the `emotion` key is added only
when the emotion argument is truthy (non-empty) and not `"default"` after
lowercasing (line 182). -/
def create_speech_task_payload (model text_file_id voice_id : String)
    (speed vol : ℚ) (pitch : ℤ) (sample_rate bitrate : ℤ) (format : String)
    (channel : ℤ) (emotion : String) : SpeechTaskPayload :=
  let base : VoiceSetting :=
    { voice_id := voice_id, speed := speed, vol := vol, pitch := pitch, emotion := none }
  let vs := if emotion ≠ "" ∧ emotion.toLower ≠ "default"
    then { base with emotion := some emotion } else base
  { model := model, text_file_id := text_file_id, voice_setting := vs,
    audio_setting :=
      { audio_sample_rate := sample_rate, bitrate := bitrate, format := format,
        channel := channel } }

/-! ### Filesystem model for extraction and placement

A directory listing is an ordered association list of names to entries; an
entry is a file with contents or a directory holding a flat file map.  The
list order models `os.listdir` order. -/

/-- A top-level filesystem entry. -/
inductive Entry where
  | file (data : String)
  | dir (files : List (String × String))
deriving DecidableEq, Repr

/-- `os.path.isdir` on an entry. -/
def Entry.isDir : Entry → Bool
  | .dir _ => true
  | .file _ => false

/-- Look up the entry with the given name. -/
def lookupEntry (fs : List (String × Entry)) (n : String) : Option Entry :=
  (fs.find? (fun p => p.1 == n)).map Prod.snd

/-- `shutil.rmtree` / `os.remove`: drop the entry with the given name. -/
def removeEntry (fs : List (String × Entry)) (n : String) : List (String × Entry) :=
  fs.filter (fun p => !(p.1 == n))

/-- `shutil.move` to a non-existing sibling name: rename in place. -/
def renameEntry (fs : List (String × Entry)) (old target : String) : List (String × Entry) :=
  fs.map (fun p => if p.1 == old then (target, p.2) else p)

/-- `tarfile.extractall` merge of a directory's file map into a same-named
existing directory: archive members overwrite same-named files, other
pre-existing files survive. -/
def mergeFiles (stale fresh : List (String × String)) : List (String × String) :=
  fresh ++ stale.filter (fun p => (fresh.find? (fun q => q.1 == p.1)).isNone)

/-- `tarfile.extractall` into a possibly non-empty directory: each archive
entry replaces a same-named file or merges into a same-named directory;
pre-existing entries with other names survive.  The resulting listing order
puts the extracted entries first (one admissible `os.listdir` order). -/
def extractall (fs archive : List (String × Entry)) : List (String × Entry) :=
  archive.map (fun p =>
    match p.2, lookupEntry fs p.1 with
    | .dir fresh, some (.dir stale) => (p.1, Entry.dir (mergeFiles stale fresh))
    | _, _ => p)
  ++ fs.filter (fun p => (archive.find? (fun q => q.1 == p.1)).isNone)

/-! ### extract_and_rename (src/functions.py lines 350-416) -/

/-- The `renamed_path` value returned by `extract_and_rename`. -/
inductive RenamedPath where
  /-- `extract_dir/new_dir_name`. -/
  | subdir (name : String)
  /-- `extract_dir` itself. -/
  | root
deriving DecidableEq, Repr

/-- `extract_and_rename`: extract the archive into `extract_dir` (whose
current listing is `fs`, containing among others the tar file `tarName`),
then locate the first extracted top-level directory in listing order
(lines 368-383), rename it to `new_dir_name` after deleting a stale target
(lines 385-408), and delete the tar file (lines 410-414).  `none` models
`return None`.  The model takes the archive as parsed content, so an
unreadable tar (lines 359-361) is outside the model.  In the no-directory
branch (lines 378-380), the subsequent `shutil.rmtree` of a same-named file
raises, and otherwise `shutil.move(extract_dir, extract_dir/new_dir_name)`
moves a directory into itself and raises, so that branch always returns
`None` (lines 394-408). -/
def extract_and_rename (archive fs : List (String × Entry)) (tarName new_dir_name : String) :
    Option (List (String × Entry) × RenamedPath) :=
  let listing := extractall fs archive
  match (listing.filter (fun p => p.2.isDir)).head? with
  | some (n, _) =>
      if n = new_dir_name then
        some (removeEntry listing tarName, .subdir new_dir_name)
      else
        match lookupEntry listing new_dir_name with
        | some (.file _) => none
        | some (.dir _) =>
            some (removeEntry (renameEntry (removeEntry listing new_dir_name) n new_dir_name) tarName,
              .subdir new_dir_name)
        | none =>
            some (removeEntry (renameEntry listing n new_dir_name) tarName, .subdir new_dir_name)
  | none => none

/-! ### Final placement phase of process_tar_to_srt (src/functions.py lines 583-633)

Modelled in the standard case where `extracted_content_path` is the renamed
subdirectory of the temporary processing directory, distinct from both the
final target and the temporary base (so lines 587-588, 602-603 and 606-621 do
not apply and line 623 performs the move). -/

/-- Final placement: `final_target_dir_path = final_output_base_dir/baseName`;
if it exists it is deleted (lines 586-599; `shutil.rmtree` of a non-directory
raises, caught as failure), then the extracted content directory is moved
there (line 623).  Returns the updated top-level listing of the output root
and the final path name. -/
def process_tar_to_srt_place (outputFs : List (String × Entry)) (baseName : String)
    (content : List (String × String)) : Option (List (String × Entry) × String) :=
  match lookupEntry outputFs baseName with
  | some (.file _) => none
  | some (.dir _) =>
      some (removeEntry outputFs baseName ++ [(baseName, .dir content)], baseName)
  | none =>
      some (outputFs ++ [(baseName, .dir content)], baseName)

/-! ### download_file (src/functions.py lines 276-348) -/

/-- Python truthiness of an optional string: `None` and `""` are falsy. -/
def truthy : Option String → Bool
  | none => false
  | some s => !(s == "")

/-- Outcome of the metadata request of `download_file` (lines 289-300):
transport error (lines 293-298), non-zero application status (lines 344-348),
or a parsed response carrying an optional `download_url`. -/
inductive MetaResult where
  | err
  | fail
  | ok (download_url : Option String)
deriving DecidableEq, Repr

/-- Outcome of the streamed download (lines 318-340): the full archive bytes,
or a failure (timeout, HTTP error, or any other exception) after a partial
prefix was written. -/
inductive StreamResult where
  | ok (data : String)
  | errAfter (written : String)
deriving DecidableEq, Repr

/-- The external behaviour driving one `download_file` run. -/
structure DlEnv where
  meta : MetaResult
  mkdirOk : Bool
  stream : StreamResult
deriving DecidableEq, Repr

/-- The filesystem slots touched by `download_file`: whether `save_dir`
exists, and the contents at `save_dir/{txt_file_name}.tar`. -/
structure DlFs where
  dirExists : Bool
  fileData : Option String
deriving DecidableEq, Repr

/-- Observable filesystem events of one `download_file` run, in order. -/
inductive DlEvent where
  | mkdir
  | writeData (s : String)
  | removeFile
deriving DecidableEq, Repr

/-- The streaming phase (lines 318-340): on success the file holds the full
data and the path is returned; on failure the partial file is written then
removed (`os.remove`, lines 331, 335, 339) and `None` is returned with the
url. -/
def download_file_stream (stream : StreamResult) (fs : DlFs) (path : String)
    (url : Option String) (evs : List DlEvent) :
    (Option String × Option String) × DlFs × List DlEvent :=
  match stream with
  | .ok data => ((some path, url), { fs with fileData := some data }, evs ++ [.writeData data])
  | .errAfter written =>
      ((none, url), { fs with fileData := none }, evs ++ [.writeData written, .removeFile])

/-- `download_file`: metadata lookup, then (when a truthy download url is
present) creation of `save_dir` if absent (lines 307-313; a failed
`os.makedirs` returns early), then the streamed download.  Returns the pair
`(file_path, download_url)` returned by the Python function, the final
filesystem state, and the event trace. -/
def download_file (env : DlEnv) (fs : DlFs) (save_dir txt_file_name : String) :
    (Option String × Option String) × DlFs × List DlEvent :=
  match env.meta with
  | .err => ((none, none), fs, [])
  | .fail => ((none, none), fs, [])
  | .ok url =>
      if truthy url then
        if fs.dirExists then
          download_file_stream env.stream fs (save_dir ++ "/" ++ txt_file_name ++ ".tar") url []
        else if env.mkdirOk then
          download_file_stream env.stream { fs with dirExists := true }
            (save_dir ++ "/" ++ txt_file_name ++ ".tar") url [.mkdir]
        else ((none, url), fs, [])
      else ((none, none), fs, [])

/-! ### process_txt_file (src/functions.py lines 660-756)

The per-file pipeline is driven by the outcomes of its external calls; each
early `return` on a falsy result models lines 680-682, 688-690, 694-696,
701-705 and 714-720.  The function's observable outputs here are the number
of success records appended (`save_success_record`, lines 722-734) and
whether a final output folder was produced (lines 737-747). -/

/-- The external outcomes driving one `process_txt_file` run. -/
structure ProcEnv where
  /-- `upload_text_file` result (line 679). -/
  upload : Option String
  /-- `create_speech_task` result (line 685). -/
  create_task : Option String
  /-- `get_task_status` result (line 693). -/
  poll : Option String
  /-- whether creating the fresh temp processing directory succeeds (701-705). -/
  tmp_mkdir_ok : Bool
  /-- environment of the `download_file` call (lines 708-712). -/
  dl : DlEnv
  /-- whether `process_tar_to_srt` produces a final folder (lines 737-742). -/
  tar_ok : Bool
deriving DecidableEq, Repr

/-- `process_txt_file`: returns (number of `SuccessRecord`s appended, whether
a final output folder was produced).  The download runs inside the freshly
created temp directory (`dirExists = true`, no file yet); a record is
appended exactly at lines 722-734, after the download result check and
before `process_tar_to_srt`. -/
def process_txt_file (env : ProcEnv) (output_dir name : String) : Nat × Bool :=
  if truthy env.upload then
    if truthy env.create_task then
      if truthy env.poll then
        if env.tmp_mkdir_ok then
          let dlOut := download_file env.dl ⟨true, none⟩
            (output_dir ++ "/" ++ name ++ "_temp_processing") name
          if truthy dlOut.1.1 then
            ((if truthy dlOut.1.2 then 1 else 0), env.tar_ok)
          else (0, false)
        else (0, false)
      else (0, false)
    else (0, false)
  else (0, false)

/-- The archive download step of a run completed successfully: all stages up
to and including `download_file` succeeded. -/
def downloadCompleted (env : ProcEnv) (output_dir name : String) : Prop :=
  truthy env.upload = true ∧ truthy env.create_task = true ∧ truthy env.poll = true ∧
  env.tmp_mkdir_ok = true ∧
  ((download_file env.dl ⟨true, none⟩
      (output_dir ++ "/" ++ name ++ "_temp_processing") name).1.1).isSome = true

/-! ### Lookup lemmas for the filesystem model -/

theorem lookupEntry_append (fs1 fs2 : List (String × Entry)) (n : String) :
    lookupEntry (fs1 ++ fs2) n = (lookupEntry fs1 n).or (lookupEntry fs2 n) := by
  rw [lookupEntry, lookupEntry, lookupEntry, List.find?_append]
  cases fs1.find? (fun p => p.1 == n) <;> simp

theorem lookupEntry_removeEntry_self (fs : List (String × Entry)) (n : String) :
    lookupEntry (removeEntry fs n) n = none := by
  rw [lookupEntry]
  have : List.find? (fun p => p.1 == n) (removeEntry fs n) = none := by
    rw [List.find?_eq_none]
    intro x hx
    have := List.of_mem_filter hx
    simp at this
    simp [this]
  rw [this]
  rfl

theorem lookupEntry_removeEntry_ne (fs : List (String × Entry)) (n m : String) (h : m ≠ n) :
    lookupEntry (removeEntry fs n) m = lookupEntry fs m := by
  rw [lookupEntry, lookupEntry, removeEntry]
  congr 1
  induction fs with
  | nil => rfl
  | cons p rest ih =>
    by_cases hp : p.1 = n
    · have h1 : (p.1 == n) = true := beq_iff_eq.mpr hp
      have h2 : (p.1 == m) = false := beq_eq_false_iff_ne.mpr (by rw [hp]; exact fun e => h e.symm)
      simp [List.filter, h1, h2, ih]
    · have h1 : (p.1 == n) = false := beq_eq_false_iff_ne.mpr hp
      by_cases hm : p.1 = m
      · have h2 : (p.1 == m) = true := beq_iff_eq.mpr hm
        simp [List.filter, h1, h2]
      · have h2 : (p.1 == m) = false := beq_eq_false_iff_ne.mpr hm
        simp [List.filter, h1, h2, ih]

/-! ### save_success_record (src/functions.py lines 94-113) -/

/-- The state of the shared `succeed.json` file as `save_success_record`
reads it: absent, unparsable JSON, a JSON array of records, or valid JSON
that is not a list.  Records are abstracted as natural numbers. -/
inductive LogFileContent where
  | absent
  | invalid
  | jsonList (l : List Nat)
  | jsonNonList
deriving DecidableEq, Repr

/-- `save_success_record`: read the existing array, resetting `records` to
`[]` when the file is absent (line 98), fails to parse (lines 105-107), or
holds a non-list (lines 102-104); append the record (line 108) and write the
whole array back (lines 109-110).  Returns the new file content. -/
def save_success_record : LogFileContent → Nat → List Nat
  | .absent, r => [r]
  | .invalid, r => [r]
  | .jsonNonList, r => [r]
  | .jsonList l, r => l ++ [r]

/-- One atomic step of a worker's read-append-write cycle on the shared log;
two workers are modelled, each reading once then writing once. -/
inductive LogStep where
  | readA
  | writeA
  | readB
  | writeB
deriving DecidableEq, Repr

/-- Shared file plus each worker's local `records` snapshot. -/
structure LogRunState where
  fileContent : List Nat
  bufA : Option (List Nat)
  bufB : Option (List Nat)
deriving DecidableEq, Repr

/-- Interleaved execution of two `save_success_record` calls appending `rA`
and `rB`: a read snapshots the whole file into the worker's local list
(lines 98-107), a write stores the worker's appended array over the whole
file (lines 108-110).  There is no lock in the code, so any interleaving of
the four steps is possible. -/
def logStep (rA rB : Nat) (s : LogRunState) : LogStep → LogRunState
  | .readA => { s with bufA := some s.fileContent }
  | .readB => { s with bufB := some s.fileContent }
  | .writeA =>
      match s.bufA with
      | some l => { s with fileContent := save_success_record (.jsonList l) rA }
      | none => s
  | .writeB =>
      match s.bufB with
      | some l => { s with fileContent := save_success_record (.jsonList l) rB }
      | none => s

/-- Run an interleaving of the two workers' steps. -/
def runLog (rA rB : Nat) (steps : List LogStep) (s : LogRunState) : LogRunState :=
  steps.foldl (logStep rA rB) s

/-! ### Arithmetic facts about the Python primitives -/

theorem pyFloorMod_nonneg (a b : ℚ) (hb : 0 < b) : 0 ≤ pyFloorMod a b := by
  rw [pyFloorMod, ratFloor_eq, sub_nonneg]
  calc b * (⌊a / b⌋ : ℚ) ≤ b * (a / b) :=
        mul_le_mul_of_nonneg_left (Int.floor_le _) hb.le
    _ = a := by rw [mul_comm, div_mul_cancel₀ _ hb.ne']

theorem pyFloorMod_lt (a b : ℚ) (hb : 0 < b) : pyFloorMod a b < b := by
  rw [pyFloorMod, ratFloor_eq, sub_lt_iff_lt_add]
  have h := Int.lt_floor_add_one (a / b)
  calc a = a / b * b := (div_mul_cancel₀ _ hb.ne').symm
    _ < ((⌊a / b⌋ : ℚ) + 1) * b := by
        exact mul_lt_mul_of_pos_right h hb
    _ = b + b * (⌊a / b⌋ : ℚ) := by ring

theorem pyRound_bounds (q : ℚ) : ⌊q⌋ ≤ pyRound q ∧ pyRound q ≤ ⌊q⌋ + 1 := by
  rw [pyRound, ratFloor_eq]
  split_ifs <;> omega

/-- The three division/modulo field computations of
`convert_seconds_to_srt_time` recompose to the floor of the input. -/
theorem srt_fields_decompose (q : ℚ) :
    3600 * ⌊q / 3600⌋ + 60 * ⌊pyFloorMod q 3600 / 60⌋ + ⌊pyFloorMod q 60⌋ = ⌊q⌋ := by
  have h1 : pyFloorMod q 3600 / 60 = q / 60 - ((60 * ⌊q / 3600⌋ : ℤ) : ℚ) := by
    rw [pyFloorMod, ratFloor_eq]
    push_cast
    ring
  have h2 : pyFloorMod q 60 = q - ((60 * ⌊q / 60⌋ : ℤ) : ℚ) := by
    rw [pyFloorMod, ratFloor_eq]
    push_cast
    ring
  rw [h1, h2, Int.floor_sub_int, Int.floor_sub_int]
  ring

/-- The polling loop on a list of exclusively non-terminal responses consumes
every attempt, sleeps after each one, and returns failure. -/
theorem get_task_status_loop_nonterminal (l : List PollResponse)
    (h : ∀ r ∈ l, nonTerminal r) :
    get_task_status_loop l = (none, List.replicate l.length retry_delay_seconds) := by
  induction l with
  | nil => rfl
  | cons r rest ih =>
    have hr := h r (List.mem_cons_self r rest)
    have hrest := ih fun x hx => h x (List.mem_cons_of_mem r hx)
    cases r with
    | transportError =>
        simp [get_task_status_loop, hrest, List.replicate_succ]
    | malformed =>
        simp [get_task_status_loop, hrest, List.replicate_succ]
    | ok status fid =>
        obtain ⟨h1, h2, h3⟩ := hr
        simp [get_task_status_loop, h1, h2, h3, hrest, List.replicate_succ]

/-- C1: a `Success` response makes `get_task_status` return the response's
file id immediately (no further sleep); a `Failed` or `Expired` response makes
it return `None` immediately; and any run of 100 attempts whose responses are
all transport errors, malformed responses, or non-terminal statuses ends with
`None`, with each of the 100 non-terminal attempts followed by the same
5-second delay. -/
theorem get_task_status_terminal_and_timeout :
    (∀ fid rest, get_task_status (.ok "Success" fid :: rest) = (fid, [])) ∧
    (∀ status fid rest, status = "Failed" ∨ status = "Expired" →
      get_task_status (.ok status fid :: rest) = (none, [])) ∧
    (∀ responses : List PollResponse, max_retries ≤ responses.length →
      (∀ r ∈ responses.take max_retries, nonTerminal r) →
      get_task_status responses = (none, List.replicate max_retries retry_delay_seconds)) := by
  refine ⟨?_, ?_, ?_⟩
  · intro fid rest
    rw [get_task_status, show (PollResponse.ok "Success" fid :: rest).take max_retries
        = .ok "Success" fid :: rest.take 99 from rfl]
    simp [get_task_status_loop]
  · intro status fid rest h
    rw [get_task_status, show (PollResponse.ok status fid :: rest).take max_retries
        = .ok status fid :: rest.take 99 from rfl]
    rcases h with h | h <;> subst h <;> simp [get_task_status_loop]
  · intro responses hlen hnt
    rw [get_task_status, get_task_status_loop_nonterminal _ hnt, List.length_take,
      min_eq_left hlen]

/-- Witness for C1 at concrete inputs: an immediate success, an immediate
failure, and 100 consecutive transport errors. -/
theorem get_task_status_terminal_and_timeout_witness :
    get_task_status [.ok "Success" (some "f")] = (some "f", []) ∧
    get_task_status [.ok "Failed" none] = (none, []) ∧
    get_task_status (List.replicate 100 .transportError)
      = (none, List.replicate 100 5) := by
  obtain ⟨h1, h2, h3⟩ := get_task_status_terminal_and_timeout
  refine ⟨h1 (some "f") [], h2 "Failed" none [] (Or.inl rfl), ?_⟩
  exact h3 (List.replicate 100 .transportError) (by simp [max_retries])
    (by
      intro r hr
      rw [List.eq_of_mem_replicate (List.mem_of_mem_take hr)]
      exact trivial)

/-- C4: for every non-negative input, the fields of
`convert_seconds_to_srt_time` lie in range (milliseconds strictly below 1000,
so a `,1000` component never appears), and the fields jointly represent
exactly `floor(seconds)*1000` plus the fractional part rounded to
milliseconds, i.e. the rollover of a rounded value of 1000 milliseconds is
carried into seconds and cascades into minutes and hours; concretely,
59.9996 renders as `00:01:00,000`. -/
theorem convert_seconds_to_srt_time_carry (q : ℚ) (hq : 0 ≤ q) :
    0 ≤ (convert_seconds_to_srt_time_fields q).millis ∧
    (convert_seconds_to_srt_time_fields q).millis < 1000 ∧
    0 ≤ (convert_seconds_to_srt_time_fields q).secs ∧
    (convert_seconds_to_srt_time_fields q).secs < 60 ∧
    0 ≤ (convert_seconds_to_srt_time_fields q).minutes ∧
    (convert_seconds_to_srt_time_fields q).minutes < 60 ∧
    0 ≤ (convert_seconds_to_srt_time_fields q).hours ∧
    (convert_seconds_to_srt_time_fields q).hours * 3600000 +
      (convert_seconds_to_srt_time_fields q).minutes * 60000 +
      (convert_seconds_to_srt_time_fields q).secs * 1000 +
      (convert_seconds_to_srt_time_fields q).millis
        = ⌊q⌋ * 1000 + pyRound ((q - ⌊q⌋) * 1000) ∧
    convert_seconds_to_srt_time (599996/10000 : ℚ) = "00:01:00,000" := by
  have hstr : convert_seconds_to_srt_time (599996/10000 : ℚ) = "00:01:00,000" := by
    have h : convert_seconds_to_srt_time_fields (599996/10000 : ℚ) = ⟨0,1,0,0⟩ := by
      norm_num [convert_seconds_to_srt_time_fields, pyFloorMod, pyTrunc, pyRound, ratFloor_eq]
    rw [convert_seconds_to_srt_time, h]
    rfl
  have htr : pyTrunc q = ⌊q⌋ := by rw [pyTrunc, if_pos hq, ratFloor_eq]
  have hm60n : 0 ≤ pyFloorMod q 60 := pyFloorMod_nonneg q 60 (by norm_num)
  have hm60l : pyFloorMod q 60 < 60 := pyFloorMod_lt q 60 (by norm_num)
  have hm36n : 0 ≤ pyFloorMod q 3600 := pyFloorMod_nonneg q 3600 (by norm_num)
  have hm36l : pyFloorMod q 3600 < 3600 := pyFloorMod_lt q 3600 (by norm_num)
  have hsecs : pyTrunc (pyFloorMod q 60) = ⌊pyFloorMod q 60⌋ := by
    rw [pyTrunc, if_pos hm60n, ratFloor_eq]
  have hs0 : 0 ≤ ⌊pyFloorMod q 60⌋ := Int.floor_nonneg.mpr hm60n
  have hs1 : ⌊pyFloorMod q 60⌋ < 60 := by
    rw [Int.floor_lt]
    exact_mod_cast hm60l
  have hmin0 : 0 ≤ ⌊pyFloorMod q 3600 / 60⌋ :=
    Int.floor_nonneg.mpr (div_nonneg hm36n (by norm_num))
  have hmin1 : ⌊pyFloorMod q 3600 / 60⌋ < 60 := by
    rw [Int.floor_lt]
    rw [div_lt_iff₀ (by norm_num : (0:ℚ) < 60)]
    calc pyFloorMod q 3600 < 3600 := hm36l
      _ = (60 : ℚ) * 60 := by norm_num
      _ ≤ ((60:ℤ) : ℚ) * 60 := by norm_num
  have hh0 : 0 ≤ ⌊q / 3600⌋ := Int.floor_nonneg.mpr (div_nonneg hq (by norm_num))
  have hdec := srt_fields_decompose q
  have hfr0 : 0 ≤ (q - (⌊q⌋ : ℚ)) * 1000 := by
    have := Int.floor_le q
    nlinarith
  have hfr1 : (q - (⌊q⌋ : ℚ)) * 1000 < 1000 := by
    have := Int.lt_floor_add_one q
    nlinarith
  have hms0 : 0 ≤ pyRound ((q - (⌊q⌋:ℚ)) * 1000) := by
    have := (pyRound_bounds ((q - (⌊q⌋:ℚ)) * 1000)).1
    have h0 : 0 ≤ ⌊(q - (⌊q⌋:ℚ)) * 1000⌋ := Int.floor_nonneg.mpr hfr0
    omega
  have hms1 : pyRound ((q - (⌊q⌋:ℚ)) * 1000) ≤ 1000 := by
    have := (pyRound_bounds ((q - (⌊q⌋:ℚ)) * 1000)).2
    have h1 : ⌊(q - (⌊q⌋:ℚ)) * 1000⌋ < 1000 := by
      rw [Int.floor_lt]
      exact_mod_cast hfr1
    omega
  rw [convert_seconds_to_srt_time_fields]
  simp only [htr, hsecs, ratFloor_eq]
  split_ifs with h1 h2 h3 <;>
    simp only [] <;>
    refine ⟨by omega, by omega, by omega, by omega, by omega, by omega, by omega, by omega, hstr⟩

theorem tar_path_ne_empty (sd nm : String) : (sd ++ "/" ++ nm ++ ".tar") ≠ "" := by
  intro h
  have hlen := congrArg String.length h
  have h4 : (".tar").length = 4 := rfl
  have h1 : ("/").length = 1 := rfl
  simp [String.length_append, h4, h1] at hlen

theorem truthy_isSome (o : Option String) (h : truthy o = true) : o.isSome = true := by
  cases o with
  | none => simp [truthy] at h
  | some s => rfl

/-- A successful `download_file` return carries a truthy (non-empty) path and
a truthy download url: the success branch is reached only under the line-305
url check, and the returned path always ends in `.tar`. -/
theorem download_file_success_truthy (env : DlEnv) (fs : DlFs) (sd nm : String)
    (h : ((download_file env fs sd nm).1.1).isSome = true) :
    truthy (download_file env fs sd nm).1.1 = true ∧
    truthy (download_file env fs sd nm).1.2 = true := by
  have hne : ((sd ++ "/" ++ nm ++ ".tar") == "") = false :=
    beq_eq_false_iff_ne.mpr (tar_path_ne_empty sd nm)
  rcases env with ⟨meta, mk, st⟩
  cases meta with
  | err => simp [download_file] at h
  | fail => simp [download_file] at h
  | ok url =>
    simp only [download_file] at h ⊢
    split_ifs at h ⊢ with hu hd hm <;> cases st <;>
      simp_all [download_file_stream, truthy, hne]

/-- C8: in every `download_file` run the event trace is one of: nothing; a
single full write (preceded by directory creation when the directory was
absent); or a partial write followed by its removal (likewise optionally
preceded by directory creation).  Whenever bytes are written the destination
directory exists (created first when absent), a stream failure returns `None`
and leaves no file at the archive path, a run that never writes leaves the
path untouched, and a successful return carries the fully streamed data. -/
theorem download_file_no_partial (env : DlEnv) (fs : DlFs) (sd nm : String) :
    ((download_file env fs sd nm).2.2 = [] ∨
     (∃ d, (download_file env fs sd nm).2.2 = [.writeData d] ∨
           (download_file env fs sd nm).2.2 = [.mkdir, .writeData d]) ∨
     (∃ p, (download_file env fs sd nm).2.2 = [.writeData p, .removeFile] ∨
           (download_file env fs sd nm).2.2 = [.mkdir, .writeData p, .removeFile])) ∧
    ((∃ d, DlEvent.writeData d ∈ (download_file env fs sd nm).2.2) →
      (download_file env fs sd nm).2.1.dirExists = true ∧
      (fs.dirExists = false → (download_file env fs sd nm).2.2.head? = some .mkdir)) ∧
    (∀ p, env.stream = .errAfter p →
      (∃ d, DlEvent.writeData d ∈ (download_file env fs sd nm).2.2) →
      (download_file env fs sd nm).1.1 = none ∧
      (download_file env fs sd nm).2.1.fileData = none) ∧
    ((∀ d, DlEvent.writeData d ∉ (download_file env fs sd nm).2.2) →
      (download_file env fs sd nm).2.1.fileData = fs.fileData) ∧
    (∀ pth, (download_file env fs sd nm).1.1 = some pth →
      ∃ d, env.stream = .ok d ∧ (download_file env fs sd nm).2.1.fileData = some d) := by
  rcases env with ⟨meta, mk, st⟩
  cases meta with
  | err => simp [download_file]
  | fail => simp [download_file]
  | ok url =>
    simp only [download_file]
    split_ifs with hu hd hm <;> cases st <;> simp_all [download_file_stream]

/-- Witness for C8: a run over an absent directory whose stream fails after a
partial write creates the directory first and ends with no file on disk. -/
theorem download_file_no_partial_witness :
    (download_file ⟨.ok (some "u"), true, .errAfter "xx"⟩ ⟨false, some "old"⟩ "d" "f").1.1 = none ∧
    (download_file ⟨.ok (some "u"), true, .errAfter "xx"⟩ ⟨false, some "old"⟩ "d" "f").2.1.fileData = none ∧
    (download_file ⟨.ok (some "u"), true, .errAfter "xx"⟩ ⟨false, some "old"⟩ "d" "f").2.1.dirExists = true ∧
    (download_file ⟨.ok (some "u"), true, .errAfter "xx"⟩ ⟨false, some "old"⟩ "d" "f").2.2.head?
      = some .mkdir := by
  have h := download_file_no_partial ⟨.ok (some "u"), true, .errAfter "xx"⟩ ⟨false, some "old"⟩ "d" "f"
  have hmem : ∃ d, DlEvent.writeData d
      ∈ (download_file ⟨.ok (some "u"), true, .errAfter "xx"⟩ ⟨false, some "old"⟩ "d" "f").2.2 :=
    ⟨"xx", by decide⟩
  exact ⟨(h.2.2.1 "xx" rfl hmem).1, (h.2.2.1 "xx" rfl hmem).2, (h.2.1 hmem).1, (h.2.1 hmem).2 rfl⟩

/-- C3: one `SuccessRecord` is appended exactly when the run's archive
download step completed successfully (all stages up to `download_file`
succeeded and the download returned a path); no record is appended when
upload, task creation, polling, temp-directory creation, or the download
itself fails; and the count is unchanged by the outcome of the later
extraction/subtitle stage (`process_tar_to_srt`). -/
theorem process_txt_file_success_record_iff (env : ProcEnv) (od nm : String) :
    ((process_txt_file env od nm).1 = 1 ↔ downloadCompleted env od nm) ∧
    (∀ b, (process_txt_file { env with tar_ok := b } od nm).1
      = (process_txt_file env od nm).1) := by
  constructor
  · simp only [process_txt_file, downloadCompleted]
    split_ifs with h1 h2 h3 h4 h5 h6
    · exact iff_of_true rfl ⟨h1, h2, h3, h4, truthy_isSome _ h5⟩
    · exact iff_of_false (by simp)
        (fun h => absurd (download_file_success_truthy _ _ _ _ h.2.2.2.2).2 (by simp [h6]))
    · exact iff_of_false (by simp)
        (fun h => absurd (download_file_success_truthy _ _ _ _ h.2.2.2.2).1 (by simp [h5]))
    · exact iff_of_false (by simp) (fun h => absurd h.2.2.2.1 h4)
    · exact iff_of_false (by simp) (fun h => absurd h.2.2.1 h3)
    · exact iff_of_false (by simp) (fun h => absurd h.2.1 h2)
    · exact iff_of_false (by simp) (fun h => absurd h.1 h1)
  · intro b
    simp only [process_txt_file]
    split_ifs <;> rfl

/-- C7 counterexample: when the archive's single top-level directory carries
the canonical name itself, a rerun over a stale target does not delete the
stale target before any move; `tarfile.extractall` merges the archive into
the stale directory (line 357) and the branch of line 388 returns it as-is,
so the stale file `old.txt` survives and the final content differs from a
clean run. -/
theorem extract_and_rename_same_name_merges :
    extract_and_rename
      [("report", .dir [("a.mp3", "new-audio")])]
      [("report.tar", .file "TARBYTES"), ("report", .dir [("old.txt", "stale")])]
      "report.tar" "report"
      = some ([("report", .dir [("a.mp3", "new-audio"), ("old.txt", "stale")])], .subdir "report") ∧
    extract_and_rename
      [("report", .dir [("a.mp3", "new-audio")])]
      [("report.tar", .file "TARBYTES")]
      "report.tar" "report"
      = some ([("report", .dir [("a.mp3", "new-audio")])], .subdir "report") ∧
    some ([("report", Entry.dir [("a.mp3", "new-audio"), ("old.txt", "stale")])], RenamedPath.subdir "report")
      ≠ some ([("report", Entry.dir [("a.mp3", "new-audio")])], RenamedPath.subdir "report") := by
  decide

/-- C7 (amended): a rerun of `extract_and_rename` over a stale pre-existing
target directory deletes the stale target before the move and yields the same
final content as a clean run, provided the archive's single top-level
directory is named differently from the canonical name (so it, and not the
stale target, is selected at the rename step); when the archive's top-level
directory is itself named `canonicalName`, extraction merges into the stale
directory, nothing is deleted, and stale content survives. -/
theorem extract_and_rename_replaces_stale (aname tarName newName : String)
    (ac sc : List (String × String)) (td : String)
    (h1 : aname ≠ newName) (h2 : tarName ≠ aname) (h3 : tarName ≠ newName) :
    extract_and_rename [(aname, .dir ac)]
        [(tarName, .file td), (newName, .dir sc)] tarName newName
      = some ([(newName, .dir ac)], .subdir newName) ∧
    extract_and_rename [(aname, .dir ac)] [(tarName, .file td)] tarName newName
      = some ([(newName, .dir ac)], .subdir newName) := by
  have h1s : newName ≠ aname := Ne.symm h1
  have h2s : aname ≠ tarName := Ne.symm h2
  have h3s : newName ≠ tarName := Ne.symm h3
  constructor <;>
    simp [extract_and_rename, extractall, lookupEntry, removeEntry, renameEntry, mergeFiles,
      Entry.isDir, h1, h1s, h2, h2s, h3, h3s]

/-- Witness for the amended C7 at concrete names. -/
theorem extract_and_rename_replaces_stale_witness :
    extract_and_rename [("audio123", .dir [("a.mp3", "x")])]
        [("report.tar", .file "T"), ("report", .dir [("old", "y")])] "report.tar" "report"
      = some ([("report", .dir [("a.mp3", "x")])], .subdir "report") ∧
    extract_and_rename [("audio123", .dir [("a.mp3", "x")])]
        [("report.tar", .file "T")] "report.tar" "report"
      = some ([("report", .dir [("a.mp3", "x")])], .subdir "report") :=
  extract_and_rename_replaces_stale "audio123" "report.tar" "report"
    [("a.mp3", "x")] [("old", "y")] "T" (by decide) (by decide) (by decide)

/-- C2 counterexample: with `outputRoot/report` already existing, the
completed task's output is moved to `outputRoot/report` itself after the
pre-existing directory is deleted (lines 590-592 and 623); no `report_1`
path is created and the pre-existing directory's content is destroyed. -/
theorem process_tar_to_srt_place_overwrites :
    process_tar_to_srt_place [("report", .dir [("old.mp3", "v1")])] "report" [("new.mp3", "v2")]
      = some ([("report", .dir [("new.mp3", "v2")])], "report") ∧
    lookupEntry [("report", Entry.dir [("new.mp3", "v2")])] "report_1" = none ∧
    lookupEntry [("report", Entry.dir [("new.mp3", "v2")])] "report"
      ≠ some (.dir [("old.mp3", "v1")]) := by
  decide

/-- C2 (amended): for every completed task whose final target
`outputRoot/baseName` already exists as a directory before placement, the
code deletes the pre-existing directory and moves the task's output to
`outputRoot/baseName` itself (overwrite); no suffixed `baseName_1` path is
used, every other name in the output root is left untouched, and the final
content at `baseName` is exactly the task's new output. -/
theorem process_tar_to_srt_place_deletes_and_replaces
    (outputFs : List (String × Entry)) (baseName : String)
    (content sc : List (String × String))
    (h : lookupEntry outputFs baseName = some (.dir sc)) :
    ∃ fs', process_tar_to_srt_place outputFs baseName content = some (fs', baseName) ∧
      lookupEntry fs' baseName = some (.dir content) ∧
      ∀ other, other ≠ baseName → lookupEntry fs' other = lookupEntry outputFs other := by
  rw [process_tar_to_srt_place, h]
  refine ⟨_, rfl, ?_, ?_⟩
  · rw [lookupEntry_append, lookupEntry_removeEntry_self]
    simp [lookupEntry]
  · intro other ho
    rw [lookupEntry_append, lookupEntry_removeEntry_ne _ _ _ ho]
    have hnone : lookupEntry [(baseName, Entry.dir content)] other = none := by
      simp [lookupEntry, Ne.symm ho]
    rw [hnone]
    cases lookupEntry outputFs other <;> rfl

/-- Witness for the amended C2 at a concrete colliding output root. -/
theorem process_tar_to_srt_place_deletes_and_replaces_witness :
    ∃ fs', process_tar_to_srt_place
        [("report", .dir [("old.mp3", "v1")]), ("other", .file "keep")]
        "report" [("new.mp3", "v2")] = some (fs', "report") ∧
      lookupEntry fs' "report" = some (.dir [("new.mp3", "v2")]) ∧
      ∀ other, other ≠ "report" →
        lookupEntry fs' other
          = lookupEntry [("report", .dir [("old.mp3", "v1")]), ("other", .file "keep")] other :=
  process_tar_to_srt_place_deletes_and_replaces
    [("report", .dir [("old.mp3", "v1")]), ("other", .file "keep")]
    "report" [("new.mp3", "v2")] [("old.mp3", "v1")] (by decide)

/-- The two-record input of claim C5:
`[{text:"Hi",time_begin:0,time_end:1500}, {text:"Bye",time_begin:1500,time_end:3000}]`. -/
def jsonToSrtTwoRecordInput : List TitleItem :=
  [{ text := some "Hi", time_begin := some 0, time_end := some 1500 },
   { text := some "Bye", time_begin := some 1500, time_end := some 3000 }]

/-- C5 counterexample: on the two-record input, `json_to_srt` does not write
the claimed string ending in a blank line plus newline (`...Bye\n\n`); the
`"\n".join` serialization emits only a single trailing newline after the final
blank-line element. -/
theorem json_to_srt_two_records_not_claimed :
    json_to_srt jsonToSrtTwoRecordInput
      ≠ some "1\n00:00:00,000 --> 00:00:01,500\nHi\n\n2\n00:00:01,500 --> 00:00:03,000\nBye\n\n" := by
  have h0 : convert_seconds_to_srt_time ((0:ℚ) / 1000) = "00:00:00,000" := by
    have h : convert_seconds_to_srt_time_fields ((0:ℚ)/1000) = ⟨0,0,0,0⟩ := by
      norm_num [convert_seconds_to_srt_time_fields, pyFloorMod, pyTrunc, pyRound, ratFloor_eq]
    rw [convert_seconds_to_srt_time, h]
    rfl
  have h15 : convert_seconds_to_srt_time ((1500:ℚ) / 1000) = "00:00:01,500" := by
    have h : convert_seconds_to_srt_time_fields ((1500:ℚ)/1000) = ⟨0,0,1,500⟩ := by
      norm_num [convert_seconds_to_srt_time_fields, pyFloorMod, pyTrunc, pyRound, ratFloor_eq]
    rw [convert_seconds_to_srt_time, h]
    rfl
  have h30 : convert_seconds_to_srt_time ((3000:ℚ) / 1000) = "00:00:03,000" := by
    have h : convert_seconds_to_srt_time_fields ((3000:ℚ)/1000) = ⟨0,0,3,0⟩ := by
      norm_num [convert_seconds_to_srt_time_fields, pyFloorMod, pyTrunc, pyRound, ratFloor_eq]
    rw [convert_seconds_to_srt_time, h]
    rfl
  simp only [jsonToSrtTwoRecordInput, json_to_srt, srtLines, resolveTitleItem, Option.or,
    h0, h15, h30]
  decide

/-- C5 (amended): on the two-record input, `json_to_srt` writes exactly
`1\n00:00:00,000 --> 00:00:01,500\nHi\n\n2\n00:00:01,500 --> 00:00:03,000\nBye\n`
(cues numbered sequentially from 1 in input order, a single newline after the
final blank-line element rather than two). -/
theorem json_to_srt_two_records :
    json_to_srt jsonToSrtTwoRecordInput
      = some "1\n00:00:00,000 --> 00:00:01,500\nHi\n\n2\n00:00:01,500 --> 00:00:03,000\nBye\n" := by
  have h0 : convert_seconds_to_srt_time ((0:ℚ) / 1000) = "00:00:00,000" := by
    have h : convert_seconds_to_srt_time_fields ((0:ℚ)/1000) = ⟨0,0,0,0⟩ := by
      norm_num [convert_seconds_to_srt_time_fields, pyFloorMod, pyTrunc, pyRound, ratFloor_eq]
    rw [convert_seconds_to_srt_time, h]
    rfl
  have h15 : convert_seconds_to_srt_time ((1500:ℚ) / 1000) = "00:00:01,500" := by
    have h : convert_seconds_to_srt_time_fields ((1500:ℚ)/1000) = ⟨0,0,1,500⟩ := by
      norm_num [convert_seconds_to_srt_time_fields, pyFloorMod, pyTrunc, pyRound, ratFloor_eq]
    rw [convert_seconds_to_srt_time, h]
    rfl
  have h30 : convert_seconds_to_srt_time ((3000:ℚ) / 1000) = "00:00:03,000" := by
    have h : convert_seconds_to_srt_time_fields ((3000:ℚ)/1000) = ⟨0,0,3,0⟩ := by
      norm_num [convert_seconds_to_srt_time_fields, pyFloorMod, pyTrunc, pyRound, ratFloor_eq]
    rw [convert_seconds_to_srt_time, h]
    rfl
  simp only [jsonToSrtTwoRecordInput, json_to_srt, srtLines, resolveTitleItem, Option.or,
    h0, h15, h30]
  rfl

/-- C6: within the documented ranges, the outbound payload carries speed, vol
and pitch unchanged (the model's identity rendering of `float`/`int`
coercion, no clamping), and `voice_setting` carries an `emotion` key exactly
when the emotion argument is non-empty and not case-insensitively equal to
`default`; the key, when present, holds the argument unchanged. -/
theorem create_speech_task_payload_ranges (model tfi vid : String) (speed vol : ℚ)
    (pitch : ℤ) (sr br : ℤ) (fmt : String) (ch : ℤ) (emotion : String)
    (hs1 : 1/2 ≤ speed) (hs2 : speed ≤ 2) (hv1 : 1 ≤ vol) (hv2 : vol ≤ 10)
    (hp1 : -12 ≤ pitch) (hp2 : pitch ≤ 12) :
    (create_speech_task_payload model tfi vid speed vol pitch sr br fmt ch emotion).voice_setting.speed = speed ∧
    (create_speech_task_payload model tfi vid speed vol pitch sr br fmt ch emotion).voice_setting.vol = vol ∧
    (create_speech_task_payload model tfi vid speed vol pitch sr br fmt ch emotion).voice_setting.pitch = pitch ∧
    ((create_speech_task_payload model tfi vid speed vol pitch sr br fmt ch emotion).voice_setting.emotion.isSome
      ↔ (emotion ≠ "" ∧ emotion.toLower ≠ "default")) ∧
    (∀ e, (create_speech_task_payload model tfi vid speed vol pitch sr br fmt ch emotion).voice_setting.emotion = some e
      → e = emotion) := by
  rw [create_speech_task_payload]
  split_ifs with h
  · refine ⟨rfl, rfl, rfl, ?_, ?_⟩
    · simpa using h
    · intro e he
      simpa using he.symm
  · refine ⟨rfl, rfl, rfl, ?_, ?_⟩
    · simpa using h
    · intro e he
      simp at he

/-- Witness for C6 at a concrete in-range request. -/
theorem create_speech_task_payload_ranges_witness :
    (create_speech_task_payload "speech-01" "file1" "audiobook_male_1" 1 5 0 32000 128000 "mp3" 2 "happy").voice_setting.speed = 1 ∧
    (create_speech_task_payload "speech-01" "file1" "audiobook_male_1" 1 5 0 32000 128000 "mp3" 2 "happy").voice_setting.vol = 5 ∧
    (create_speech_task_payload "speech-01" "file1" "audiobook_male_1" 1 5 0 32000 128000 "mp3" 2 "happy").voice_setting.pitch = 0 ∧
    ((create_speech_task_payload "speech-01" "file1" "audiobook_male_1" 1 5 0 32000 128000 "mp3" 2 "happy").voice_setting.emotion.isSome
      ↔ (("happy" : String) ≠ "" ∧ ("happy" : String).toLower ≠ "default")) ∧
    (∀ e, (create_speech_task_payload "speech-01" "file1" "audiobook_male_1" 1 5 0 32000 128000 "mp3" 2 "happy").voice_setting.emotion = some e
      → e = "happy") :=
  create_speech_task_payload_ranges "speech-01" "file1" "audiobook_male_1" 1 5 0 32000 128000
    "mp3" 2 "happy" (by norm_num) (by norm_num) (by norm_num) (by norm_num)
    (by norm_num) (by norm_num)

/-- C9: `save_success_record` performs its read-append-write cycle with no
mutual exclusion, so two concurrent appends are not serialized: in the
interleaving where both workers read before either writes, the first record
is lost and the final log holds only the second; only a non-overlapping
(serialized) execution of the two cycles keeps both records. -/
theorem save_success_record_lost_update :
    (runLog 1 2 [.readA, .readB, .writeA, .writeB] ⟨[], none, none⟩).fileContent = [2] ∧
    1 ∉ (runLog 1 2 [.readA, .readB, .writeA, .writeB] ⟨[], none, none⟩).fileContent ∧
    (runLog 1 2 [.readA, .writeA, .readB, .writeB] ⟨[], none, none⟩).fileContent = [1, 2] := by
  decide

/-- C10: when the existing success-log file holds invalid JSON or a JSON
value that is not a list, `save_success_record` discards the prior content
and writes a one-element array holding only the new record; for every prior
file state the append itself succeeds and the new record is present in the
rewritten array. -/
theorem save_success_record_resets_corrupt (r : Nat) :
    save_success_record .invalid r = [r] ∧
    save_success_record .jsonNonList r = [r] ∧
    ∀ c, r ∈ save_success_record c r := by
  refine ⟨rfl, rfl, ?_⟩
  intro c
  cases c <;> simp [save_success_record]

/-- Witness for C4 at the concrete input 0. -/
theorem convert_seconds_to_srt_time_carry_witness :
    0 ≤ (0:ℚ) ∧
    (0 ≤ (convert_seconds_to_srt_time_fields 0).millis ∧
    (convert_seconds_to_srt_time_fields 0).millis < 1000 ∧
    0 ≤ (convert_seconds_to_srt_time_fields 0).secs ∧
    (convert_seconds_to_srt_time_fields 0).secs < 60 ∧
    0 ≤ (convert_seconds_to_srt_time_fields 0).minutes ∧
    (convert_seconds_to_srt_time_fields 0).minutes < 60 ∧
    0 ≤ (convert_seconds_to_srt_time_fields 0).hours ∧
    (convert_seconds_to_srt_time_fields 0).hours * 3600000 +
      (convert_seconds_to_srt_time_fields 0).minutes * 60000 +
      (convert_seconds_to_srt_time_fields 0).secs * 1000 +
      (convert_seconds_to_srt_time_fields 0).millis
        = ⌊(0:ℚ)⌋ * 1000 + pyRound (((0:ℚ) - ⌊(0:ℚ)⌋) * 1000) ∧
    convert_seconds_to_srt_time (599996/10000 : ℚ) = "00:01:00,000") :=
  ⟨le_refl 0, convert_seconds_to_srt_time_carry 0 (le_refl 0)⟩

end T2A
